import Mathlib

/-!
Verification of the LinearB bulk-export request builder and API gateway
(`streamlit_app.py`).  The Python program is shallowly embedded: JSON
values and Python dicts become an inductive `Json` type and association
lists with Python-dict update semantics; the `httpx` call and the
standard-library JSON decoder are modelled by their observable outcomes.
-/

/-- JSON values, the universal data carrier of the program (Python dicts,
lists, strings and numbers).  Dict entries are kept in insertion order,
as Python dicts do. -/
inductive Json where
  | str : String → Json
  | num : Int → Json
  | arr : List Json → Json
  | obj : List (String × Json) → Json
  | null : Json
deriving Repr

/-- `d[k]` on a Python dict: the value of the first (unique) binding of `k`. -/
def dictGet (d : List (String × Json)) (k : String) : Option Json :=
  (d.find? (fun p => p.1 = k)).map (fun p => p.2)

/-- `d[k] = v` on a Python dict: replace in place if the key exists
(keeping its original position), otherwise append. -/
def dictInsert (d : List (String × Json)) (k : String) (v : Json) :
    List (String × Json) :=
  if d.any (fun p => p.1 = k) then
    d.map (fun p => if p.1 = k then (k, v) else p)
  else d ++ [(k, v)]

/-- `d.update(u)` on Python dicts: insert every binding of `u` into `d`,
in order. -/
def dictUpdate (d u : List (String × Json)) : List (String × Json) :=
  u.foldl (fun acc p => dictInsert acc p.1 p.2) d

/-- The last binding of `k` in `u` (the one that survives `d.update(u)`). -/
def dictGetLast : List (String × Json) → String → Option Json
  | [], _ => none
  | p :: u, k =>
    match dictGetLast u k with
    | some v => some v
    | none => if p.1 = k then some p.2 else none

/-- Python's whitespace class, as relevant to `str.strip()` on the ASCII
inputs of this program. -/
def isPySpace (c : Char) : Bool :=
  c = ' ' || c = '\t' || c = '\n' || c = '\x0d' || c = '\x0b' || c = '\x0c'

/-- Python `s.strip()`: drop leading and trailing whitespace. -/
def pyStrip (s : String) : String :=
  String.mk (((s.toList.dropWhile isPySpace).reverse.dropWhile isPySpace).reverse)

/-- Python `s.split(" ")`: cut at every single space character, keeping
empty segments (so `" ".split(" ") == ["", ""]`). -/
def pySplit (s : String) : List String :=
  (s.toList.splitOnP (fun c => c == ' ')).map String.mk

/-- `reformat_filters` (streamlit_app.py lines 103–108): `None` for the
empty string, otherwise split on spaces and strip each token.  Empty
tokens are not removed. -/
def reformat_filters (filters : String) : Option (List String) :=
  if filters.isEmpty then none
  else some ((pySplit filters).map pyStrip)

/-- A metric row's `value` column: either the float NaN sentinel
(`type(row["value"]) == float`, no aggregation dimension) or a list of
aggregation-kind strings. -/
inductive MetricValue where
  | scalar : MetricValue
  | aggs : List String → MetricValue
deriving Repr

/-- One row of the metrics table edited in the UI. -/
structure MetricRow where
  name : String
  selected : Bool
  value : MetricValue
deriving Repr

/-- The entries one row of the loop at lines 168–179 appends to
`requested_metrics`. -/
def rowMetrics (row : MetricRow) : List Json :=
  if row.selected then
    match row.value with
    | MetricValue.aggs vs =>
        vs.map (fun v => Json.obj [("name", Json.str row.name), ("agg", Json.str v)])
    | MetricValue.scalar => [Json.obj [("name", Json.str row.name)]]
  else []

/-- `requested_metrics` (lines 166–179): iterate the table rows in order,
appending each selected row's entries. -/
def requested_metrics (rows : List MetricRow) : List Json :=
  rows.foldr (fun row acc => rowMetrics row ++ acc) []

/-- Python truthiness of the values zipped in the `filters` dict
comprehension (line 192's `if f`): `None` is falsy, a list is truthy
iff non-empty. -/
def filterTruthy : Option (List String) → Bool
  | none => false
  | some l => !l.isEmpty

/-- The `filters` dict comprehension (lines 182–193). -/
def buildFilters (contributor_ids team_ids repository_ids service_ids labels :
    String) : List (String × Json) :=
  (List.zip
      ["contributor_ids", "team_ids", "repository_ids", "service_ids", "labels"]
      [reformat_filters contributor_ids, reformat_filters team_ids,
       reformat_filters repository_ids, reformat_filters service_ids,
       reformat_filters labels]).filterMap
    (fun nf =>
      if filterTruthy nf.2 then
        some (nf.1, Json.arr ((nf.2.getD []).map Json.str))
      else none)

/-- Python truthiness of a JSON-representable value (line 200's `if a`). -/
def jsonTruthy : Json → Bool
  | Json.str s => !s.isEmpty
  | Json.num n => n != 0
  | Json.arr l => !l.isEmpty
  | Json.obj l => !l.isEmpty
  | Json.null => false

/-- The `aggregations` dict comprehension (lines 196–201); note that it
binds `service_ids` to the raw, unsplit input string. -/
def aggregations (group_by roll_up : String) (limit : Int)
    (service_ids : String) : List (String × Json) :=
  (List.zip ["group_by", "roll_up", "limit", "service_ids"]
      [Json.str group_by, Json.str roll_up, Json.num limit,
       Json.str service_ids]).filter
    (fun na => jsonTruthy na.2)

/-- A `datetime.date` as produced by the two `st.date_input` widgets. -/
structure Date where
  year : Nat
  month : Nat
  day : Nat
deriving Repr

/-- Zero-pad the decimal rendering of `n` to width `w`. -/
def padZeros (w : Nat) (n : Nat) : String :=
  String.mk (List.replicate (w - (toString n).length) '0') ++ toString n

/-- Python `d.strftime("%Y-%m-%d")` for the 4-digit years a date picker
produces. -/
def pyStrftimeYMD (d : Date) : String :=
  padZeros 4 d.year ++ "-" ++ padZeros 2 d.month ++ "-" ++ padZeros 2 d.day

/-- Everything the submitted form hands to the payload construction. -/
structure FormInput where
  rows : List MetricRow
  contributor_ids : String
  team_ids : String
  repository_ids : String
  service_ids : String
  labels : String
  group_by : String
  roll_up : String
  limit : Int
  after : Date
  before : Date

/-- The `payload` dict (lines 203–214): the base dict with
`requested_metrics` and the single `time_ranges` entry, then
`payload.update(filters)` and `payload.update(aggregations)`. -/
def buildPayload (inp : FormInput) : List (String × Json) :=
  dictUpdate
    (dictUpdate
      [("requested_metrics", Json.arr (requested_metrics inp.rows)),
       ("time_ranges", Json.arr
         [Json.obj [("after", Json.str (pyStrftimeYMD inp.after)),
                    ("before", Json.str (pyStrftimeYMD inp.before))]])]
      (buildFilters inp.contributor_ids inp.team_ids inp.repository_ids
        inp.service_ids inp.labels))
    (aggregations inp.group_by inp.roll_up inp.limit inp.service_ids)

/-- An HTTP response as observed by the gateway: the status code, the raw
body text (`response.text`; `response.content` is non-empty iff the text
is), and the outcome of the standard library's JSON decoder on that body
(`some` for a parse, `none` when `response.json()` raises
`json.JSONDecodeError`). -/
structure HttpResponse where
  status_code : Nat
  text : String
  parsed : Option Json
deriving Repr

/-- What the single `httpx.request` call at lines 69–71 does: produce a
response, raise an `httpx.RequestError` (transport failure), or raise
some other exception.  The two error cases carry the exception's class
name and its `str(e)` message. -/
inductive RequestOutcome where
  | response : HttpResponse → RequestOutcome
  | requestError : String → String → RequestOutcome
  | otherError : String → String → RequestOutcome
deriving Repr

/-- The exceptions the `try` block at lines 68–94 can let escape to its
handlers. -/
inductive PyExc where
  | requestError : String → String → PyExc
  | otherExc : String → String → PyExc
deriving Repr

/-- The body of the `try` block (lines 68–94): classify the response, or
propagate the exception the request raised.  `Except.error` models a
raised exception crossing the block's boundary. -/
def tryBlock (outcome : RequestOutcome) : Except PyExc Json :=
  match outcome with
  | RequestOutcome.requestError kind msg =>
      Except.error (PyExc.requestError kind msg)
  | RequestOutcome.otherError kind msg =>
      Except.error (PyExc.otherExc kind msg)
  | RequestOutcome.response r =>
      Except.ok
        (if 200 ≤ r.status_code ∧ r.status_code < 300 then
          if r.status_code = 204 then
            Json.obj [("message", Json.str "Operation successful (No Content)."),
                      ("status_code", Json.num 204)]
          else if !r.text.isEmpty then
            match r.parsed with
            | some body => body
            | none =>
                Json.obj [("error", Json.str "Failed to decode JSON response."),
                          ("status_code", Json.num r.status_code),
                          ("response_text", Json.str r.text)]
          else
            Json.obj [("message", Json.str ("Operation successful (Status: " ++
                        toString r.status_code ++ ").")),
                      ("status_code", Json.num r.status_code)]
        else
          Json.obj [("error", Json.str "API request failed."),
                    ("status_code", Json.num r.status_code),
                    ("details",
                      match r.parsed with
                      | some details => details
                      | none => Json.str r.text)])

/-- `make_linearb_request` (lines 27–98).  The second component counts
the `httpx.request` calls the invocation performs: `0` on the missing-
credential early return, `1` once control reaches the `try` block.  The
`except` clauses at lines 95–98 turn every exception the block raises
into a returned dict, so the function always returns. -/
def make_linearb_request (api_token : String) (outcome : RequestOutcome) :
    Json × Nat :=
  if api_token.isEmpty then
    (Json.obj [("error", Json.str "LinearB API Key is required."),
               ("status_code", Json.num 401)], 0)
  else
    (match tryBlock outcome with
     | Except.ok result => result
     | Except.error (PyExc.requestError kind msg) =>
         Json.obj [("error", Json.str ("HTTP request error: " ++ kind)),
                   ("details", Json.str msg)]
     | Except.error (PyExc.otherExc kind msg) =>
         Json.obj [("error", Json.str ("An unexpected error occurred: " ++ kind)),
                   ("details", Json.str msg)], 1)

/-- The observable operations of the post-submission handler, in order. -/
inductive Effect where
  | stError : Json → Effect
  | stLinkButton : Json → Effect
  | pythonKeyError : String → Effect
deriving Repr

/-- The handler at lines 228–231: render `response["error"]` when the key
is present, then unconditionally evaluate `response['report_url']` for
the link button — a lookup that raises `KeyError` when the key is
absent. -/
def extractHandler (response : List (String × Json)) : List Effect :=
  (match dictGet response "error" with
   | some e => [Effect.stError e]
   | none => []) ++
  (match dictGet response "report_url" with
   | some url => [Effect.stLinkButton url]
   | none => [Effect.pythonKeyError "report_url"])

theorem dictGet_cons_eq (q : String × Json) (d : List (String × Json))
    (k : String) (h : q.1 = k) : dictGet (q :: d) k = some q.2 := by
  simp [dictGet, List.find?, h]

theorem dictGet_cons_ne (q : String × Json) (d : List (String × Json))
    (k : String) (h : q.1 ≠ k) : dictGet (q :: d) k = dictGet d k := by
  simp [dictGet, List.find?, h]

theorem dictInsert_cons_ne (q : String × Json) (d : List (String × Json))
    (k : String) (v : Json) (h : q.1 ≠ k) :
    dictInsert (q :: d) k v = q :: dictInsert d k v := by
  by_cases hd : (d.any fun p => decide (p.1 = k)) = true
  · simp [dictInsert, h, hd]
  · simp [dictInsert, h, hd]

theorem dictInsert_cons_eq (q : String × Json) (d : List (String × Json))
    (k : String) (v : Json) (h : q.1 = k) :
    dictInsert (q :: d) k v =
      (k, v) :: d.map (fun p => if p.1 = k then (k, v) else p) := by
  simp [dictInsert, h]

theorem dictGet_map_replace_ne (d : List (String × Json)) (k k' : String)
    (v : Json) (h : k' ≠ k) :
    dictGet (d.map (fun p => if p.1 = k' then (k', v) else p)) k = dictGet d k := by
  induction d with
  | nil => simp
  | cons q d ih =>
    by_cases hq : q.1 = k'
    · rw [List.map_cons, if_pos hq, dictGet_cons_ne _ _ _ h,
        dictGet_cons_ne q _ _ (hq ▸ h), ih]
    · rw [List.map_cons, if_neg hq]
      by_cases hk : q.1 = k
      · rw [dictGet_cons_eq _ _ _ hk, dictGet_cons_eq _ _ _ hk]
      · rw [dictGet_cons_ne _ _ _ hk, dictGet_cons_ne _ _ _ hk, ih]

theorem dictGet_dictInsert_self (d : List (String × Json)) (k : String)
    (v : Json) : dictGet (dictInsert d k v) k = some v := by
  induction d with
  | nil => simp [dictGet, dictInsert, List.find?]
  | cons q d ih =>
    by_cases hq : q.1 = k
    · rw [dictInsert_cons_eq _ _ _ _ hq, dictGet_cons_eq _ _ _ rfl]
    · rw [dictInsert_cons_ne _ _ _ _ hq, dictGet_cons_ne _ _ _ hq, ih]

theorem dictGet_dictInsert_ne (d : List (String × Json)) (k k' : String)
    (v : Json) (h : k' ≠ k) : dictGet (dictInsert d k' v) k = dictGet d k := by
  induction d with
  | nil =>
    simp [dictGet, dictInsert, List.find?, h]
  | cons q d ih =>
    by_cases hq : q.1 = k'
    · rw [dictInsert_cons_eq _ _ _ _ hq, dictGet_cons_ne _ _ _ h,
        dictGet_map_replace_ne _ _ _ _ h, dictGet_cons_ne q _ _ (hq ▸ h)]
    · rw [dictInsert_cons_ne _ _ _ _ hq]
      by_cases hk : q.1 = k
      · rw [dictGet_cons_eq _ _ _ hk, dictGet_cons_eq _ _ _ hk]
      · rw [dictGet_cons_ne _ _ _ hk, dictGet_cons_ne _ _ _ hk, ih]

theorem dictGet_dictUpdate (u : List (String × Json))
    (d : List (String × Json)) (k : String) :
    dictGet (dictUpdate d u) k =
      match dictGetLast u k with
      | some v => some v
      | none => dictGet d k := by
  induction u generalizing d with
  | nil => simp [dictUpdate, dictGetLast]
  | cons p u ih =>
    show dictGet (dictUpdate (dictInsert d p.1 p.2) u) k = _
    rw [ih]
    cases h : dictGetLast u k with
    | some v => simp [dictGetLast, h]
    | none =>
      by_cases hp : p.1 = k
      · simp [dictGetLast, h, hp, dictGet_dictInsert_self]
      · simp [dictGetLast, h, hp, dictGet_dictInsert_ne _ _ _ _ hp]

theorem pySplit_ne_nil (s : String) : pySplit s ≠ [] := by
  simp only [pySplit, ne_eq, List.map_eq_nil_iff]
  exact List.splitOnP_ne_nil _ _

theorem pySplit_map_ne_nil (s : String) : (pySplit s).map pyStrip ≠ [] := by
  simp only [ne_eq, List.map_eq_nil_iff]
  exact pySplit_ne_nil s

theorem filterTruthy_reformat (s : String) (h : ¬s.isEmpty = true) :
    filterTruthy (reformat_filters s) = true := by
  rw [reformat_filters, if_neg h]
  have hne := pySplit_map_ne_nil s
  cases hl : (pySplit s).map pyStrip with
  | nil => exact absurd hl hne
  | cons a l => simp [filterTruthy, hl]

/-- Evaluate the `filters` dict comprehension to its five conditional
entries. -/
theorem buildFilters_eval (c t r sv l : String) :
    buildFilters c t r sv l =
      (if c.isEmpty then [] else
        [("contributor_ids", Json.arr (((pySplit c).map pyStrip).map Json.str))]) ++
      (if t.isEmpty then [] else
        [("team_ids", Json.arr (((pySplit t).map pyStrip).map Json.str))]) ++
      (if r.isEmpty then [] else
        [("repository_ids", Json.arr (((pySplit r).map pyStrip).map Json.str))]) ++
      (if sv.isEmpty then [] else
        [("service_ids", Json.arr (((pySplit sv).map pyStrip).map Json.str))]) ++
      (if l.isEmpty then [] else
        [("labels", Json.arr (((pySplit l).map pyStrip).map Json.str))]) := by
  simp only [buildFilters, List.zip, List.zipWith, List.filterMap]
  by_cases hc : c.isEmpty <;> by_cases ht : t.isEmpty <;>
    by_cases hr : r.isEmpty <;> by_cases hsv : sv.isEmpty <;>
    by_cases hl : l.isEmpty <;>
    simp [reformat_filters, hc, ht, hr, hsv, hl, filterTruthy,
      filterTruthy_reformat, pySplit_ne_nil, pySplit_map_ne_nil,
      List.isEmpty_eq_false]

/-- Evaluate the `aggregations` dict comprehension to its four
conditional entries. -/
theorem aggregations_eval (gb ru : String) (lim : Int) (sv : String) :
    aggregations gb ru lim sv =
      (if gb.isEmpty then [] else [("group_by", Json.str gb)]) ++
      (if ru.isEmpty then [] else [("roll_up", Json.str ru)]) ++
      (if lim = 0 then [] else [("limit", Json.num lim)]) ++
      (if sv.isEmpty then [] else [("service_ids", Json.str sv)]) := by
  have hb : (lim != 0) = decide (¬lim = 0) := by
    by_cases h : lim = 0 <;> simp [h]
  simp only [aggregations, List.zip, List.zipWith, List.filter, jsonTruthy, hb]
  by_cases hgb : gb.isEmpty <;> by_cases hru : ru.isEmpty <;>
    by_cases hlim : lim = 0 <;> by_cases hsv : sv.isEmpty <;>
    simp [hgb, hru, hlim, hsv]

theorem dictGetLast_append (u v : List (String × Json)) (k : String) :
    dictGetLast (u ++ v) k =
      match dictGetLast v k with
      | some w => some w
      | none => dictGetLast u k := by
  induction u with
  | nil => cases h : dictGetLast v k <;> simp [dictGetLast, h]
  | cons p u ih =>
    show (match dictGetLast (u ++ v) k with
      | some w => some w
      | none => if p.1 = k then some p.2 else none) = _
    rw [ih]
    cases h : dictGetLast v k
    all_goals cases h2 : dictGetLast u k
    all_goals simp [dictGetLast, h, h2]

theorem dictGetLast_if_singleton (c : Prop) [Decidable c] (key k : String)
    (v : Json) :
    dictGetLast (if c then [] else [(key, v)]) k =
      if c then none else if key = k then some v else none := by
  by_cases h1 : c
  · simp [h1, dictGetLast]
  · by_cases h2 : key = k <;> simp [h1, h2, dictGetLast]

theorem payload_get_time_ranges (inp : FormInput) :
    dictGet (buildPayload inp) "time_ranges" =
      some (Json.arr
        [Json.obj [("after", Json.str (pyStrftimeYMD inp.after)),
                   ("before", Json.str (pyStrftimeYMD inp.before))]]) := by
  simp only [buildPayload, dictGet_dictUpdate, buildFilters_eval,
    aggregations_eval, dictGetLast_append, dictGetLast_if_singleton]
  simp [dictGet, List.find?, dictGetLast]

theorem payload_get_limit (inp : FormInput) :
    dictGet (buildPayload inp) "limit" =
      if inp.limit = 0 then none else some (Json.num inp.limit) := by
  by_cases h : inp.limit = 0 <;>
    (simp only [buildPayload, dictGet_dictUpdate, buildFilters_eval,
      aggregations_eval, dictGetLast_append, dictGetLast_if_singleton];
     simp [h, dictGet, List.find?, dictGetLast])

theorem payload_get_group_by (inp : FormInput) :
    dictGet (buildPayload inp) "group_by" =
      if inp.group_by.isEmpty then none else some (Json.str inp.group_by) := by
  by_cases h : inp.group_by.isEmpty <;>
    (simp only [buildPayload, dictGet_dictUpdate, buildFilters_eval,
      aggregations_eval, dictGetLast_append, dictGetLast_if_singleton];
     simp [h, dictGet, List.find?, dictGetLast])

theorem payload_get_roll_up (inp : FormInput) :
    dictGet (buildPayload inp) "roll_up" =
      if inp.roll_up.isEmpty then none else some (Json.str inp.roll_up) := by
  by_cases h : inp.roll_up.isEmpty <;>
    (simp only [buildPayload, dictGet_dictUpdate, buildFilters_eval,
      aggregations_eval, dictGetLast_append, dictGetLast_if_singleton];
     simp [h, dictGet, List.find?, dictGetLast])

theorem payload_get_service_ids (inp : FormInput) :
    dictGet (buildPayload inp) "service_ids" =
      if inp.service_ids.isEmpty then none
      else some (Json.str inp.service_ids) := by
  by_cases h : inp.service_ids.isEmpty <;>
    (simp only [buildPayload, dictGet_dictUpdate, buildFilters_eval,
      aggregations_eval, dictGetLast_append, dictGetLast_if_singleton];
     simp [h, dictGet, List.find?, dictGetLast])

theorem payload_get_contributor_ids (inp : FormInput) :
    dictGet (buildPayload inp) "contributor_ids" =
      if inp.contributor_ids.isEmpty then none
      else some (Json.arr (((pySplit inp.contributor_ids).map pyStrip).map
        Json.str)) := by
  by_cases h : inp.contributor_ids.isEmpty <;>
    (simp only [buildPayload, dictGet_dictUpdate, buildFilters_eval,
      aggregations_eval, dictGetLast_append, dictGetLast_if_singleton];
     simp [h, dictGet, List.find?, dictGetLast])

theorem payload_get_team_ids (inp : FormInput) :
    dictGet (buildPayload inp) "team_ids" =
      if inp.team_ids.isEmpty then none
      else some (Json.arr (((pySplit inp.team_ids).map pyStrip).map
        Json.str)) := by
  by_cases h : inp.team_ids.isEmpty <;>
    (simp only [buildPayload, dictGet_dictUpdate, buildFilters_eval,
      aggregations_eval, dictGetLast_append, dictGetLast_if_singleton];
     simp [h, dictGet, List.find?, dictGetLast])

theorem payload_get_repository_ids (inp : FormInput) :
    dictGet (buildPayload inp) "repository_ids" =
      if inp.repository_ids.isEmpty then none
      else some (Json.arr (((pySplit inp.repository_ids).map pyStrip).map
        Json.str)) := by
  by_cases h : inp.repository_ids.isEmpty <;>
    (simp only [buildPayload, dictGet_dictUpdate, buildFilters_eval,
      aggregations_eval, dictGetLast_append, dictGetLast_if_singleton];
     simp [h, dictGet, List.find?, dictGetLast])

theorem payload_get_labels (inp : FormInput) :
    dictGet (buildPayload inp) "labels" =
      if inp.labels.isEmpty then none
      else some (Json.arr (((pySplit inp.labels).map pyStrip).map
        Json.str)) := by
  by_cases h : inp.labels.isEmpty <;>
    (simp only [buildPayload, dictGet_dictUpdate, buildFilters_eval,
      aggregations_eval, dictGetLast_append, dictGetLast_if_singleton];
     simp [h, dictGet, List.find?, dictGetLast])

theorem dictGet_append (u v : List (String × Json)) (k : String) :
    dictGet (u ++ v) k =
      match dictGet u k with
      | some w => some w
      | none => dictGet v k := by
  induction u with
  | nil => rfl
  | cons p u ih =>
    by_cases hp : p.1 = k
    · rw [List.cons_append, dictGet_cons_eq _ _ _ hp, dictGet_cons_eq _ _ _ hp]
    · rw [List.cons_append, dictGet_cons_ne _ _ _ hp, dictGet_cons_ne _ _ _ hp,
        ih]

theorem dictGet_if_singleton (c : Prop) [Decidable c] (key k : String)
    (v : Json) :
    dictGet (if c then [] else [(key, v)]) k =
      if c then none else if key = k then some v else none := by
  by_cases h1 : c
  · simp [h1, dictGet]
  · by_cases h2 : key = k <;> simp [h1, h2, dictGet, List.find?]

theorem requested_metrics_cons (row : MetricRow) (rows : List MetricRow) :
    requested_metrics (row :: rows) = rowMetrics row ++ requested_metrics rows :=
  rfl

theorem requested_metrics_length (rows : List MetricRow) :
    (requested_metrics rows).length =
      (rows.map (fun row =>
        if row.selected then
          match row.value with
          | MetricValue.scalar => 1
          | MetricValue.aggs vs => vs.length
        else 0)).sum := by
  induction rows with
  | nil => rfl
  | cons row rows ih =>
    rw [requested_metrics_cons, List.length_append, ih, List.map_cons,
      List.sum_cons]
    congr 1
    by_cases h : row.selected
    · cases hv : row.value <;> simp [rowMetrics, h, hv]
    · simp [rowMetrics, h]

theorem requested_metrics_filter_selected (rows : List MetricRow) :
    requested_metrics rows =
      requested_metrics (rows.filter (fun row => row.selected)) := by
  induction rows with
  | nil => rfl
  | cons row rows ih =>
    by_cases h : row.selected
    · rw [requested_metrics_cons, List.filter_cons_of_pos (by simp [h]),
        requested_metrics_cons, ih]
    · rw [requested_metrics_cons, List.filter_cons_of_neg (by simp [h])]
      simp [rowMetrics, h, ih]

theorem jsonTruthy_arr_tokens (s : String) :
    jsonTruthy (Json.arr (((pySplit s).map pyStrip).map Json.str)) = true := by
  have h := pySplit_map_ne_nil s
  cases hl : (pySplit s).map pyStrip with
  | nil => exact absurd hl h
  | cons a l => simp [jsonTruthy, hl]

/-- C5: the API Gateway is total over its inputs — `make_linearb_request`
returns exactly one value by construction (its Lean type is a function
into `Json × Nat`, and every branch of the source, including both
`except` clauses, returns) — and once the request is attempted, a raised
`httpx.RequestError` (timeout, connection refused, DNS, TLS) is caught
and returned as the transport-error dict carrying the exception's kind
and message, while any other raised exception is caught and returned as
the unexpected-error dict, never re-raised. -/
theorem claim5_gateway_total (tok : String) (oc : RequestOutcome)
    (kind msg : String) (htok : tok.isEmpty = false) :
    (oc = RequestOutcome.requestError kind msg →
      (make_linearb_request tok oc).1 =
        Json.obj [("error", Json.str ("HTTP request error: " ++ kind)),
                  ("details", Json.str msg)]) ∧
    (oc = RequestOutcome.otherError kind msg →
      (make_linearb_request tok oc).1 =
        Json.obj [("error", Json.str ("An unexpected error occurred: " ++ kind)),
                  ("details", Json.str msg)]) := by
  constructor <;> rintro rfl <;> simp [make_linearb_request, tryBlock, htok]

/-- Witness for C5 at a concrete timeout. -/
theorem claim5_witness :
    (make_linearb_request "secret-key"
      (RequestOutcome.requestError "ConnectTimeout" "timed out")).1 =
      Json.obj [("error", Json.str ("HTTP request error: " ++ "ConnectTimeout")),
                ("details", Json.str "timed out")] :=
  (claim5_gateway_total "secret-key" _ "ConnectTimeout" "timed out"
    (by decide)).1 rfl

/-- C6: with an empty credential the gateway returns the 401 error dict
from line 51 and performs zero `httpx.request` calls (the second
component of the result counts them). -/
theorem claim6_no_credential (tok : String) (oc : RequestOutcome)
    (h : tok.isEmpty = true) :
    make_linearb_request tok oc =
      (Json.obj [("error", Json.str "LinearB API Key is required."),
                 ("status_code", Json.num 401)], 0) := by
  simp [make_linearb_request, h]

/-- Witness for C6 at the empty credential. -/
theorem claim6_witness :
    make_linearb_request ""
      (RequestOutcome.response ⟨200, "\x7b\x7d", some (Json.obj [])⟩) =
      (Json.obj [("error", Json.str "LinearB API Key is required."),
                 ("status_code", Json.num 401)], 0) :=
  claim6_no_credential "" _ (by decide)

/-- C7: for a 2xx status other than 204, a non-empty body that parses is
returned as the parsed JSON itself, a non-empty body that fails to parse
yields the decode-error dict with the status code and the raw response
text, and an empty body yields the empty-body message dict with the
status code. -/
theorem claim7_success_classification (tok : String) (r : HttpResponse)
    (body : Json) (htok : tok.isEmpty = false) (h1 : 200 ≤ r.status_code)
    (h2 : r.status_code < 300) (h3 : r.status_code ≠ 204) :
    (r.text.isEmpty = false → r.parsed = some body →
      (make_linearb_request tok (RequestOutcome.response r)).1 = body) ∧
    (r.text.isEmpty = false → r.parsed = none →
      (make_linearb_request tok (RequestOutcome.response r)).1 =
        Json.obj [("error", Json.str "Failed to decode JSON response."),
                  ("status_code", Json.num r.status_code),
                  ("response_text", Json.str r.text)]) ∧
    (r.text.isEmpty = true →
      (make_linearb_request tok (RequestOutcome.response r)).1 =
        Json.obj [("message", Json.str ("Operation successful (Status: " ++
                    toString r.status_code ++ ").")),
                  ("status_code", Json.num r.status_code)]) := by
  refine ⟨fun he hp => ?_, fun he hp => ?_, fun he => ?_⟩
  · simp [make_linearb_request, tryBlock, htok, h1, h2, h3, he, hp]
  · simp [make_linearb_request, tryBlock, htok, h1, h2, h3, he, hp]
  · simp [make_linearb_request, tryBlock, htok, h1, h2, h3, he]

/-- Witness for C7 at a concrete 200 response with a parsed body. -/
theorem claim7_witness :
    (make_linearb_request "secret-key"
      (RequestOutcome.response
        ⟨200, "\x7b\x7d",
         some (Json.obj [("report_url", Json.str "https://x")])⟩)).1 =
      Json.obj [("report_url", Json.str "https://x")] :=
  (claim7_success_classification "secret-key" _ _ (by decide) (by decide)
    (by decide) (by decide)).1 (by decide) rfl

/-- C8: a 204 response yields the fixed No-Content message dict, whatever
the body text or its parse outcome — in particular not the parsed body
itself. -/
theorem claim8_no_content (tok : String) (r : HttpResponse)
    (htok : tok.isEmpty = false) (h : r.status_code = 204) :
    (make_linearb_request tok (RequestOutcome.response r)).1 =
      Json.obj [("message", Json.str "Operation successful (No Content)."),
                ("status_code", Json.num 204)] := by
  simp [make_linearb_request, tryBlock, htok, h]

/-- Witness for C8 at a concrete 204 response. -/
theorem claim8_witness :
    (make_linearb_request "secret-key"
      (RequestOutcome.response ⟨204, "", none⟩)).1 =
      Json.obj [("message", Json.str "Operation successful (No Content)."),
                ("status_code", Json.num 204)] :=
  claim8_no_content "secret-key" _ (by decide) rfl

/-- C9: a status outside 200–299 yields the http-error dict whose
`details` is the parsed body when the body parses and the raw response
text when it does not. -/
theorem claim9_http_error (tok : String) (r : HttpResponse) (body : Json)
    (htok : tok.isEmpty = false)
    (h : ¬(200 ≤ r.status_code ∧ r.status_code < 300)) :
    (r.parsed = some body →
      (make_linearb_request tok (RequestOutcome.response r)).1 =
        Json.obj [("error", Json.str "API request failed."),
                  ("status_code", Json.num r.status_code),
                  ("details", body)]) ∧
    (r.parsed = none →
      (make_linearb_request tok (RequestOutcome.response r)).1 =
        Json.obj [("error", Json.str "API request failed."),
                  ("status_code", Json.num r.status_code),
                  ("details", Json.str r.text)]) := by
  constructor <;> intro hp <;>
    simp [make_linearb_request, tryBlock, htok, h, hp]

/-- Witness for C9 at a concrete 404 with the JSON body
`{"msg": "not found"}`. -/
theorem claim9_witness :
    (make_linearb_request "secret-key"
      (RequestOutcome.response
        ⟨404, "\x7b\x22msg\x22: \x22not found\x22\x7d",
         some (Json.obj [("msg", Json.str "not found")])⟩)).1 =
      Json.obj [("error", Json.str "API request failed."),
                ("status_code", Json.num 404),
                ("details", Json.obj [("msg", Json.str "not found")])] :=
  (claim9_http_error "secret-key" _ _ (by decide) (by decide)).1 rfl

theorem jsonTruthy_str_of_ne (s : String) (h : ¬s.isEmpty = true) :
    jsonTruthy (Json.str s) = true := by
  cases hb : s.isEmpty with
  | true => exact absurd hb h
  | false => simp [jsonTruthy, hb]

/-- C1 (counterexample): the claim says a whitespace-only filter string
is omitted from the filters dict and that bound tokens are non-empty;
for the single-space string `" "` the code instead keeps the key, bound
to the two empty tokens `["", ""]` that `" ".split(" ")` produces. -/
theorem claim1_counterexample :
    (buildFilters " " "" "" "" "").map Prod.fst = ["contributor_ids"] ∧
    reformat_filters " " = some ["", ""] := by
  constructor
  · decide
  · decide

/-- C1 (amended): only the empty filter string is omitted; every
non-empty filter string (whitespace-only included) binds its key to the
ordered list obtained by cutting at single space characters and
stripping each piece, empty tokens retained. -/
theorem claim1_filters_amended (c t r sv l : String) :
    dictGet (buildFilters c t r sv l) "contributor_ids" =
      (if c.isEmpty then none
       else some (Json.arr (((pySplit c).map pyStrip).map Json.str))) ∧
    dictGet (buildFilters c t r sv l) "team_ids" =
      (if t.isEmpty then none
       else some (Json.arr (((pySplit t).map pyStrip).map Json.str))) ∧
    dictGet (buildFilters c t r sv l) "repository_ids" =
      (if r.isEmpty then none
       else some (Json.arr (((pySplit r).map pyStrip).map Json.str))) ∧
    dictGet (buildFilters c t r sv l) "service_ids" =
      (if sv.isEmpty then none
       else some (Json.arr (((pySplit sv).map pyStrip).map Json.str))) ∧
    dictGet (buildFilters c t r sv l) "labels" =
      (if l.isEmpty then none
       else some (Json.arr (((pySplit l).map pyStrip).map Json.str))) := by
  refine ⟨?_, ?_, ?_, ?_, ?_⟩ <;>
    (simp only [buildFilters_eval, dictGet_append, dictGet_if_singleton];
     by_cases hc : c.isEmpty <;> by_cases ht : t.isEmpty <;>
       by_cases hr : r.isEmpty <;> by_cases hsv : sv.isEmpty <;>
       by_cases hl : l.isEmpty <;>
       simp [hc, ht, hr, hsv, hl, dictGet, List.find?])

/-- C2: the requested-metrics list has length equal to the sum over
selected rows of one per scalar-valued row and one per aggregation kind
of a list-valued row; dropping unselected rows leaves the list
unchanged; a selected list-valued row contributes one `{name, agg}`
object per kind in the row's order, a selected scalar row exactly one
`{name}` object, and an unselected row nothing. -/
theorem claim2_requested_metrics (rows : List MetricRow) (row : MetricRow)
    (vs : List String) :
    (requested_metrics rows).length =
      (rows.map (fun r =>
        if r.selected then
          match r.value with
          | MetricValue.scalar => 1
          | MetricValue.aggs kinds => kinds.length
        else 0)).sum ∧
    requested_metrics rows =
      requested_metrics (rows.filter (fun r => r.selected)) ∧
    (row.selected = true → row.value = MetricValue.aggs vs →
      rowMetrics row = vs.map (fun v =>
        Json.obj [("name", Json.str row.name), ("agg", Json.str v)])) ∧
    (row.selected = true → row.value = MetricValue.scalar →
      rowMetrics row = [Json.obj [("name", Json.str row.name)]]) ∧
    (row.selected = false → rowMetrics row = []) := by
  refine ⟨requested_metrics_length rows,
    requested_metrics_filter_selected rows, ?_, ?_, ?_⟩
  · intro hs hv; simp [rowMetrics, hs, hv]
  · intro hs hv; simp [rowMetrics, hs, hv]
  · intro hs; simp [rowMetrics, hs]

/-- Witness for C2 on a concrete three-row table. -/
theorem claim2_witness :
    (requested_metrics
      [⟨"cycle_time", true, MetricValue.aggs ["p75", "avg"]⟩,
       ⟨"deploy_frequency", false, MetricValue.aggs ["avg"]⟩,
       ⟨"mttr", true, MetricValue.scalar⟩]).length = 3 ∧
    rowMetrics ⟨"cycle_time", true, MetricValue.aggs ["p75", "avg"]⟩ =
      [Json.obj [("name", Json.str "cycle_time"), ("agg", Json.str "p75")],
       Json.obj [("name", Json.str "cycle_time"), ("agg", Json.str "avg")]] := by
  constructor
  · rw [(claim2_requested_metrics
      [⟨"cycle_time", true, MetricValue.aggs ["p75", "avg"]⟩,
       ⟨"deploy_frequency", false, MetricValue.aggs ["avg"]⟩,
       ⟨"mttr", true, MetricValue.scalar⟩]
      ⟨"mttr", true, MetricValue.scalar⟩ []).1]
    decide
  · exact (claim2_requested_metrics []
      ⟨"cycle_time", true, MetricValue.aggs ["p75", "avg"]⟩
      ["p75", "avg"]).2.2.1 rfl rfl

/-- A concrete submission whose `service id` field holds `"1 2"` and
whose other filter fields are empty. -/
def serviceFormInput : FormInput :=
  ⟨[], "", "", "", "1 2", "", "team", "1w", 2, ⟨2024, 1, 1⟩, ⟨2024, 1, 31⟩⟩

/-- C3 (counterexample): for the non-empty service filter string
`"1 2"`, the final payload binds `service_ids` to the raw string — the
`aggregations` merge at lines 196–214 overwrites the tokenized list the
filters dict held — not to the claimed token list `["1", "2"]`. -/
theorem claim3_counterexample :
    dictGet (buildPayload serviceFormInput) "service_ids" =
      some (Json.str "1 2") ∧
    dictGet (buildPayload serviceFormInput) "service_ids" ≠
      some (Json.arr [Json.str "1", Json.str "2"]) := by
  have hs : ("1 2" : String).isEmpty = false := by decide
  constructor
  · rw [payload_get_service_ids]
    show (if ("1 2" : String).isEmpty = true then none
      else some (Json.str "1 2")) = some (Json.str "1 2")
    rw [hs]
    simp
  · rw [payload_get_service_ids]
    show ¬((if ("1 2" : String).isEmpty = true then none
      else some (Json.str "1 2")) = some (Json.arr [Json.str "1", Json.str "2"]))
    rw [hs]
    simp only [Bool.false_eq_true, if_false]
    intro hcontra
    rw [Option.some_inj] at hcontra
    exact Json.noConfusion hcontra

/-- C3 (amended): whenever the service filter string is non-empty, the
final payload's `service_ids` field is the raw, unsplit input string,
because `payload.update(aggregations)` runs after
`payload.update(filters)` and rebinds the key. -/
theorem claim3_payload_service_ids_raw (inp : FormInput)
    (h : inp.service_ids.isEmpty = false) :
    dictGet (buildPayload inp) "service_ids" =
      some (Json.str inp.service_ids) := by
  rw [payload_get_service_ids, h]
  simp

/-- Witness for the amended C3 at the concrete input. -/
theorem claim3_witness :
    dictGet (buildPayload serviceFormInput) "service_ids" =
      some (Json.str "1 2") :=
  claim3_payload_service_ids_raw serviceFormInput (by decide)

/-- C4 (code-bug evidence): on the 401 error dict the gateway returns
for a missing credential, the handler at lines 228–231 renders the error
message and then still evaluates `response['report_url']` for the link
button, raising `KeyError` — it does not stop at the error branch as
the claim (and the spec's stated intent) requires. -/
theorem claim4_handler_crash :
    extractHandler
      [("error", Json.str "LinearB API Key is required."),
       ("status_code", Json.num 401)] =
      [Effect.stError (Json.str "LinearB API Key is required."),
       Effect.pythonKeyError "report_url"] := by
  rfl

/-- C10: in every built payload `time_ranges` is present with exactly
one entry whose `after` and `before` are the `YYYY-MM-DD` renderings of
the two picked dates; `limit = 0` is omitted while a non-zero limit
appears as itself; and any filter or aggregation key present in the
payload is bound to a Python-truthy value. -/
theorem claim10_payload_merging (inp : FormInput) (k : String) (v : Json) :
    dictGet (buildPayload inp) "time_ranges" =
      some (Json.arr
        [Json.obj [("after", Json.str (pyStrftimeYMD inp.after)),
                   ("before", Json.str (pyStrftimeYMD inp.before))]]) ∧
    (inp.limit = 0 → dictGet (buildPayload inp) "limit" = none) ∧
    (inp.limit ≠ 0 →
      dictGet (buildPayload inp) "limit" = some (Json.num inp.limit)) ∧
    (k ∈ ["contributor_ids", "team_ids", "repository_ids", "service_ids",
          "labels", "group_by", "roll_up", "limit"] →
      dictGet (buildPayload inp) k = some v → jsonTruthy v = true) := by
  refine ⟨payload_get_time_ranges inp, fun h => ?_, fun h => ?_,
    fun hk hv => ?_⟩
  · rw [payload_get_limit, if_pos h]
  · rw [payload_get_limit, if_neg h]
  · simp only [List.mem_cons, List.mem_singleton, List.not_mem_nil,
      or_false] at hk
    rcases hk with rfl | rfl | rfl | rfl | rfl | rfl | rfl | rfl
    · rw [payload_get_contributor_ids] at hv
      by_cases h : inp.contributor_ids.isEmpty
      · rw [if_pos h] at hv; cases hv
      · rw [if_neg h] at hv; rw [Option.some_inj] at hv; subst hv
        exact jsonTruthy_arr_tokens _
    · rw [payload_get_team_ids] at hv
      by_cases h : inp.team_ids.isEmpty
      · rw [if_pos h] at hv; cases hv
      · rw [if_neg h] at hv; rw [Option.some_inj] at hv; subst hv
        exact jsonTruthy_arr_tokens _
    · rw [payload_get_repository_ids] at hv
      by_cases h : inp.repository_ids.isEmpty
      · rw [if_pos h] at hv; cases hv
      · rw [if_neg h] at hv; rw [Option.some_inj] at hv; subst hv
        exact jsonTruthy_arr_tokens _
    · rw [payload_get_service_ids] at hv
      by_cases h : inp.service_ids.isEmpty
      · rw [if_pos h] at hv; cases hv
      · rw [if_neg h] at hv; rw [Option.some_inj] at hv; subst hv
        exact jsonTruthy_str_of_ne _ h
    · rw [payload_get_labels] at hv
      by_cases h : inp.labels.isEmpty
      · rw [if_pos h] at hv; cases hv
      · rw [if_neg h] at hv; rw [Option.some_inj] at hv; subst hv
        exact jsonTruthy_arr_tokens _
    · rw [payload_get_group_by] at hv
      by_cases h : inp.group_by.isEmpty
      · rw [if_pos h] at hv; cases hv
      · rw [if_neg h] at hv; rw [Option.some_inj] at hv; subst hv
        exact jsonTruthy_str_of_ne _ h
    · rw [payload_get_roll_up] at hv
      by_cases h : inp.roll_up.isEmpty
      · rw [if_pos h] at hv; cases hv
      · rw [if_neg h] at hv; rw [Option.some_inj] at hv; subst hv
        exact jsonTruthy_str_of_ne _ h
    · rw [payload_get_limit] at hv
      by_cases h : inp.limit = 0
      · rw [if_pos h] at hv; cases hv
      · rw [if_neg h] at hv; rw [Option.some_inj] at hv; subst hv
        simp only [jsonTruthy, bne_iff_ne, ne_eq]
        exact h

/-- A concrete submission, the spec's end-to-end scenario: two metric
rows, `team ids` `"12 34"`, grouping by team, weekly roll-up, limit 2,
January 2024 date range. -/
def scenarioFormInput : FormInput :=
  ⟨[⟨"cycle_time", true, MetricValue.aggs ["p75", "avg"]⟩,
    ⟨"deploy_frequency", false, MetricValue.aggs ["avg"]⟩],
   "", "12 34", "", "", "", "team", "1w", 2, ⟨2024, 1, 1⟩, ⟨2024, 1, 31⟩⟩

/-- Witness for C10 on the end-to-end scenario input. -/
theorem claim10_witness :
    dictGet (buildPayload scenarioFormInput) "time_ranges" =
      some (Json.arr
        [Json.obj [("after", Json.str (pyStrftimeYMD ⟨2024, 1, 1⟩)),
                   ("before", Json.str (pyStrftimeYMD ⟨2024, 1, 31⟩))]]) ∧
    dictGet (buildPayload scenarioFormInput) "limit" = some (Json.num 2) ∧
    jsonTruthy (Json.num 2) = true :=
  ⟨(claim10_payload_merging scenarioFormInput "limit" (Json.num 2)).1,
   (claim10_payload_merging scenarioFormInput "limit" (Json.num 2)).2.2.1
     (by decide),
   (claim10_payload_merging scenarioFormInput "limit" (Json.num 2)).2.2.2
     (by decide)
     ((claim10_payload_merging scenarioFormInput "limit" (Json.num 2)).2.2.1
       (by decide))⟩
